import Mathlib

/-!
Shallow embedding of the call-state reconciliation engine of
boostedcalls-server (Django app `calls`).

The embedding follows the source files:

* `calls/constants.py`        — status lattice and lookup tables
* `calls/models.py`           — the `Call` record and `CallStatus` choices
* `calls/services/calls.py`   — pull channel: `_reconcile_call_from_vapi`,
  `_map_ended_reason`, `_is_valid_status_transition`, `_extract_summary`,
  `create_call`, `get_call`, `cancel_call`
* `calls/services/webhook.py` — push channel: `_handle_status_update`,
  `_handle_end_of_call_report`, `_map_ended_reason`, `_is_valid_transition`,
  `_extract_summary_from_webhook`, `VAPI_STATUS_MAP`

Python strings are Lean `String`s; Python `None`/empty-string truthiness on
text fields is modelled by `""` (the code only ever tests truthiness, never
distinguishes `None` from `""`).  Timestamps are already-parsed whole-second
integers (`Option Int`, `none` = absent or unparsable, matching
`parse_datetime` returning `None`).  JSON objects appearing in the payloads
are modelled by association lists and small structures holding exactly the
keys the code reads or writes.
-/

namespace BoostedCalls

/-! ### String helpers: Python `str.lower`, `str.replace("-","_")`, `in`, `strip` -/

/-- Python `pat` being a prefix of `s`, char by char. -/
def isPre : List Char → List Char → Bool
  | [], _ => true
  | _ :: _, [] => false
  | a :: as, b :: bs => a == b && isPre as bs

/-- Python substring test `pat in s` on char lists. -/
def listHas (pat : List Char) : List Char → Bool
  | [] => pat.isEmpty
  | c :: rest => isPre pat (c :: rest) || listHas pat rest

/-- Python `pat in s` for strings. -/
def strContains (s pat : String) : Bool := listHas pat.data s.data

/-- Python `s.lower().replace("-", "_")`, applied character-wise. -/
def lowerReplace (s : String) : String :=
  String.mk (s.data.map fun c => if c == '-' then '_' else c.toLower)

/-- Python `s.lower()`. -/
def strLower (s : String) : String := String.mk (s.data.map Char.toLower)

/-- Python `s.strip()`: drop whitespace at both ends. -/
def strStrip (s : String) : String :=
  String.mk (((s.data.dropWhile Char.isWhitespace).reverse.dropWhile Char.isWhitespace).reverse)

/-! ### constants.py and models.py: the status lattice -/

def CallStatus.PENDING : String := "pending"

def CallStatus.QUEUED : String := "queued"

def CallStatus.INITIATED : String := "initiated"

def CallStatus.RINGING : String := "ringing"

def CallStatus.IN_PROGRESS : String := "in-progress"

def CallStatus.COMPLETED : String := "completed"

def CallStatus.FAILED : String := "failed"

def CallStatus.CANCELLED : String := "cancelled"

def CallStatus.NO_ANSWER : String := "no-answer"

def CallStatus.BUSY : String := "busy"

def CallStatus.VOICEMAIL : String := "voicemail"

/-- Canonical status lattice: the `CallStatus` choices of models.py. -/
def CallStatus.values : List String :=
  ["pending", "queued", "initiated", "ringing", "in-progress",
   "completed", "failed", "cancelled", "no-answer", "busy", "voicemail"]

def MAX_PENDING_CALLS : Nat := 2

def ACTIVE_STATUSES : List String :=
  ["pending", "queued", "initiated", "ringing", "in-progress"]

def STALE_ELIGIBLE_STATUSES : List String := ["pending", "queued"]

def TERMINAL_STATUSES : List String :=
  ["completed", "failed", "cancelled", "no-answer", "busy", "voicemail"]

/-- STATUS_ORDER dict from constants.py. -/
def STATUS_ORDER : List (String × Nat) :=
  [("pending", 0), ("queued", 1), ("initiated", 2), ("ringing", 3),
   ("in-progress", 4), ("completed", 10), ("failed", 10), ("cancelled", 10),
   ("no-answer", 10), ("busy", 10), ("voicemail", 10)]

/-- Python `STATUS_ORDER.get(s, 0)`. -/
def statusOrderGet (s : String) : Nat := (STATUS_ORDER.lookup s).getD 0

/-! ### Payload and record shapes -/

/-- One entry of `artifact.structuredOutputs` (a dict of id to name/result). -/
structure StructEntry where
  name : String := ""
  result : String := ""
deriving DecidableEq, Repr

/-- Value stored in `Call.analysis`: the merged dict built by reconciliation
(top-level analysis keys plus a `structuredOutputs` sub-map). -/
structure AnalysisVal where
  base : List (String × String) := []
  structuredOutputs : List (String × StructEntry) := []
deriving DecidableEq, Repr

/-- Python dict truthiness of `call.analysis` (`None` or `{}` are falsy). -/
def analysisEmpty : Option AnalysisVal → Bool
  | none => true
  | some v => v.base == [] && v.structuredOutputs == []

/-- The call's `metadata` JSON map, as the keys reconciliation writes plus an
opaque remainder `rest` of all other keys (never touched by the merger). -/
structure Metadata where
  recordingUrl : Option String := none
  stereoRecordingUrl : Option String := none
  messages : Option (List String) := none
  cost : Option Int := none
  costBreakdown : Option String := none
  rest : List (String × String) := []
deriving DecidableEq, Repr

/-- The persisted `Call` row (the fields the reconciliation engine touches). -/
structure Call where
  status : String := "pending"
  vapi_call_id : String := ""
  transcript : String := ""
  summary : String := ""
  analysis : Option AnalysisVal := none
  started_at : Option Int := none
  ended_at : Option Int := none
  duration_seconds : Option Int := none
  metadata : Metadata := {}
  error_message : String := ""
deriving DecidableEq, Repr

/-- Vapi GET /call response (the pull snapshot), flattened as the code reads
it: `artifact.transcript` and `artifact.structuredOutputs` are inlined. -/
structure VapiData where
  status : String := ""
  endedReason : String := ""
  transcript : String := ""
  summary : String := ""
  analysis : List (String × String) := []
  artifactTranscript : String := ""
  structuredOutputs : List (String × StructEntry) := []
  recordingUrl : String := ""
  stereoRecordingUrl : String := ""
  messages : List String := []
  cost : Option Int := none
  costBreakdown : String := ""
  startedAt : Option Int := none
  endedAt : Option Int := none
deriving DecidableEq, Repr

/-- The `message.call` sub-object of a webhook payload. -/
structure CallData where
  analysis : List (String × String) := []
  recordingUrl : String := ""
  stereoRecordingUrl : String := ""
  messages : List String := []
  cost : Option Int := none
  costBreakdown : String := ""
  startedAt : Option Int := none
  endedAt : Option Int := none
deriving DecidableEq, Repr

/-- The `message` object of a webhook payload (push snapshot); fields used by
the status-update and end-of-call-report handlers. -/
structure WebhookMessage where
  status : String := ""
  timestamp : Option Int := none
  endedReason : String := ""
  transcript : String := ""
  summary : String := ""
  analysis : List (String × String) := []
  artifactTranscript : String := ""
  structuredOutputs : List (String × StructEntry) := []
  recordingUrl : String := ""
  stereoRecordingUrl : String := ""
  messages : List String := []
  cost : Option Int := none
  costBreakdown : String := ""
  call : CallData := {}
deriving DecidableEq, Repr

/-! ### First-write-wins primitives (the `if value and not call.field` idiom) -/

/-- Timestamp write: `if value and not call.field: call.field = value`. -/
def fillIfEmptyTime (value old : Option Int) : Option Int :=
  if value.isSome ∧ old = none then value else old

/-- Text write: `if value and not call.field: call.field = value`. -/
def fillIfEmptyStr (value old : String) : String :=
  if value ≠ "" ∧ old = "" then value else old

/-! ### calls.py — pull channel -/

/-- Source `calls.services.calls._is_valid_status_transition`. -/
def Calls.is_valid_status_transition (current new : String) : Bool :=
  let current_order := statusOrderGet current
  let new_order := statusOrderGet new
  if new_order ≥ 10 then true else decide (new_order ≥ current_order)

/-- Source `calls.services.calls._map_ended_reason`. -/
def Calls.map_ended_reason (reason current_status : String) : String :=
  let reason_lower := if reason ≠ "" then lowerReplace reason else ""
  if strContains reason_lower "busy" then CallStatus.BUSY
  else if strContains reason_lower "no_answer" || strContains reason_lower "did_not_answer" then
    CallStatus.NO_ANSWER
  else if strContains reason_lower "voicemail" then CallStatus.VOICEMAIL
  else if strContains reason_lower "error" then CallStatus.FAILED
  else if strContains reason_lower "silence" then CallStatus.COMPLETED
  else if current_status ∈ TERMINAL_STATUSES then current_status
  else CallStatus.COMPLETED

/-- Shared summary walk over `structuredOutputs` values, carrying the
first-nonempty fallback (steps 3 and 4 of `_extract_summary`). -/
def structuredOutputsSummary : List (String × StructEntry) → String → String
  | [], fallback => fallback
  | (_, entry) :: rest, fallback =>
    let result := strStrip entry.result
    if result = "" then structuredOutputsSummary rest fallback
    else if strContains (strLower entry.name) "summary" then result
    else if fallback = "" then structuredOutputsSummary rest result
    else structuredOutputsSummary rest fallback

/-- Source `calls.services.calls._extract_summary`. -/
def Calls.extract_summary (vapi_data : VapiData) : String :=
  let s := strStrip vapi_data.summary
  if s ≠ "" then s
  else
    let s := strStrip ((vapi_data.analysis.lookup "summary").getD "")
    if s ≠ "" then s
    else structuredOutputsSummary vapi_data.structuredOutputs ""

/-- Metadata enrichment block of `_reconcile_call_from_vapi`
(lines building `enriched_meta`). -/
def Calls.enrich_metadata (meta : Metadata) (vapi_data : VapiData) : Metadata :=
  let m := meta
  let m := if vapi_data.recordingUrl ≠ "" then
    { m with recordingUrl := some vapi_data.recordingUrl } else m
  let m := if vapi_data.stereoRecordingUrl ≠ "" then
    { m with stereoRecordingUrl := some vapi_data.stereoRecordingUrl } else m
  let m := if vapi_data.messages ≠ [] then { m with messages := some vapi_data.messages } else m
  let m := if vapi_data.cost.isSome then { m with cost := vapi_data.cost } else m
  let m := if vapi_data.costBreakdown ≠ "" then
    { m with costBreakdown := some vapi_data.costBreakdown } else m
  m

/-- Candidate status derivation of `_reconcile_call_from_vapi`:
`"ended"` goes through `_map_ended_reason`, otherwise `vapi_status or call.status`. -/
def Calls.pull_candidate_status (call : Call) (vapi_data : VapiData) : String :=
  if vapi_data.status = "ended" then Calls.map_ended_reason vapi_data.endedReason call.status
  else if vapi_data.status ≠ "" then vapi_data.status
  else call.status

/-- Python `not call.duration_seconds` (`None` or `0` are falsy). -/
def durationFalsy (d : Option Int) : Prop := d = none ∨ d = some 0

instance (d : Option Int) : Decidable (durationFalsy d) := by
  unfold durationFalsy; infer_instance

/-- Body of `_reconcile_call_from_vapi` after the transition guard accepted:
the sequential field mutations and the `update_fields` list, in source order. -/
def Calls.apply_vapi_fields (call : Call) (vapi_data : VapiData) (new_status : String) :
    Call × List String :=
  let new_started := fillIfEmptyTime vapi_data.startedAt call.started_at
  let new_ended := fillIfEmptyTime vapi_data.endedAt call.ended_at
  let transcript := if vapi_data.transcript ≠ "" then vapi_data.transcript
    else vapi_data.artifactTranscript
  let new_transcript := fillIfEmptyStr transcript call.transcript
  let summary := Calls.extract_summary vapi_data
  let new_summary := fillIfEmptyStr summary call.summary
  let merged_nonempty := vapi_data.analysis ≠ [] ∨ vapi_data.structuredOutputs ≠ []
  let new_analysis := if merged_nonempty ∧ analysisEmpty call.analysis then
    some ⟨vapi_data.analysis, vapi_data.structuredOutputs⟩ else call.analysis
  let enriched_meta := Calls.enrich_metadata call.metadata vapi_data
  let new_duration := if new_started.isSome ∧ new_ended.isSome ∧ durationFalsy call.duration_seconds
    then some (max 0 (new_ended.getD 0 - new_started.getD 0))
    else call.duration_seconds
  let c : Call := { call with
    status := new_status
    started_at := new_started
    ended_at := new_ended
    transcript := new_transcript
    summary := new_summary
    analysis := new_analysis
    metadata := enriched_meta
    duration_seconds := new_duration }
  let fields := ["status", "updated_at"]
    ++ (if vapi_data.startedAt.isSome ∧ call.started_at = none then ["started_at"] else [])
    ++ (if vapi_data.endedAt.isSome ∧ call.ended_at = none then ["ended_at"] else [])
    ++ (if transcript ≠ "" ∧ call.transcript = "" then ["transcript"] else [])
    ++ (if summary ≠ "" ∧ call.summary = "" then ["summary"] else [])
    ++ (if merged_nonempty ∧ analysisEmpty call.analysis then ["analysis"] else [])
    ++ (if enriched_meta ≠ call.metadata then ["metadata"] else [])
    ++ (if new_started.isSome ∧ new_ended.isSome ∧ durationFalsy call.duration_seconds
        then ["duration_seconds"] else [])
  (c, fields)

/-- Source `calls.services.calls._reconcile_call_from_vapi`: the pull-channel
reconciler; returns the mutated record and the `update_fields` list
(`[]` means the snapshot was rejected and nothing is saved). -/
def Calls.reconcile_call_from_vapi (call : Call) (vapi_data : VapiData) : Call × List String :=
  let new_status := Calls.pull_candidate_status call vapi_data
  if Calls.is_valid_status_transition call.status new_status then
    Calls.apply_vapi_fields call vapi_data new_status
  else (call, [])

/-! ### webhook.py — push channel -/

/-- Source `calls.services.webhook.VAPI_STATUS_MAP`. -/
def VAPI_STATUS_MAP : List (String × String) :=
  [("queued", CallStatus.QUEUED), ("ringing", CallStatus.RINGING),
   ("in-progress", CallStatus.IN_PROGRESS), ("forwarding", CallStatus.IN_PROGRESS),
   ("ended", CallStatus.COMPLETED)]

/-- Source `calls.services.webhook._is_valid_transition` (verbatim copy of the
guard in calls.py). -/
def Webhook.is_valid_transition (current new : String) : Bool :=
  let current_order := statusOrderGet current
  let new_order := statusOrderGet new
  if new_order ≥ 10 then true else decide (new_order ≥ current_order)

/-- Source `calls.services.webhook._map_ended_reason` (verbatim copy of the
classifier in calls.py). -/
def Webhook.map_ended_reason (reason current_status : String) : String :=
  let reason_lower := if reason ≠ "" then lowerReplace reason else ""
  if strContains reason_lower "busy" then CallStatus.BUSY
  else if strContains reason_lower "no_answer" || strContains reason_lower "did_not_answer" then
    CallStatus.NO_ANSWER
  else if strContains reason_lower "voicemail" then CallStatus.VOICEMAIL
  else if strContains reason_lower "error" then CallStatus.FAILED
  else if strContains reason_lower "silence" then CallStatus.COMPLETED
  else if current_status ∈ TERMINAL_STATUSES then current_status
  else CallStatus.COMPLETED

/-- Source `calls.services.webhook._extract_summary_from_webhook`. -/
def Webhook.extract_summary_from_webhook (message : WebhookMessage) : String :=
  let s := strStrip message.summary
  if s ≠ "" then s
  else
    let s := strStrip ((message.analysis.lookup "summary").getD "")
    if s ≠ "" then s
    else structuredOutputsSummary message.structuredOutputs ""

/-- Metadata enrichment block of `_handle_end_of_call_report`
(message fields with `message.call` fallbacks, `cost` preferring `call_data`). -/
def Webhook.enrich_metadata (meta : Metadata) (message : WebhookMessage) : Metadata :=
  let call_data := message.call
  let recording_url := if message.recordingUrl ≠ "" then message.recordingUrl
    else call_data.recordingUrl
  let m := meta
  let m := if recording_url ≠ "" then { m with recordingUrl := some recording_url } else m
  let stereo_url := if message.stereoRecordingUrl ≠ "" then message.stereoRecordingUrl
    else call_data.stereoRecordingUrl
  let m := if stereo_url ≠ "" then { m with stereoRecordingUrl := some stereo_url } else m
  let msgs := if message.messages ≠ [] then message.messages else call_data.messages
  let m := if msgs ≠ [] then { m with messages := some msgs } else m
  let cost := if call_data.cost.isSome then call_data.cost else message.cost
  let m := if cost.isSome then { m with cost := cost } else m
  let cost_breakdown := if call_data.costBreakdown ≠ "" then call_data.costBreakdown
    else message.costBreakdown
  let m := if cost_breakdown ≠ "" then { m with costBreakdown := some cost_breakdown } else m
  m

/-- Source `calls.services.webhook._handle_status_update`, modelled after the
target call has been resolved; `(call, [])` stands for the acknowledged no-op
paths (unmapped status or rejected transition). -/
def Webhook.handle_status_update (call : Call) (message : WebhookMessage) : Call × List String :=
  let new_status := (VAPI_STATUS_MAP.lookup message.status).getD ""
  if new_status = "" then (call, [])
  else if Webhook.is_valid_transition call.status new_status then
    let c : Call := { call with status := new_status }
    if new_status = CallStatus.IN_PROGRESS ∧ call.started_at = none then
      ({ c with started_at := message.timestamp }, ["status", "updated_at", "started_at"])
    else (c, ["status", "updated_at"])
  else (call, [])

/-- Source `calls.services.webhook._handle_end_of_call_report`, modelled after
the target call has been resolved: the sequential field mutations and the
`update_fields` list, in source order (the record is always saved). -/
def Webhook.handle_end_of_call_report (call : Call) (message : WebhookMessage) :
    Call × List String :=
  let call_data := message.call
  let new_status := Webhook.map_ended_reason message.endedReason call.status
  let transcript := if message.transcript ≠ "" then message.transcript
    else message.artifactTranscript
  let new_transcript := fillIfEmptyStr transcript call.transcript
  let summary := Webhook.extract_summary_from_webhook message
  let new_summary := fillIfEmptyStr summary call.summary
  let analysis_obj := if message.analysis ≠ [] then message.analysis else call_data.analysis
  let merged_nonempty := analysis_obj ≠ [] ∨ message.structuredOutputs ≠ []
  let new_analysis := if merged_nonempty ∧ analysisEmpty call.analysis then
    some ⟨analysis_obj, message.structuredOutputs⟩ else call.analysis
  let enriched_meta := Webhook.enrich_metadata call.metadata message
  let new_started := fillIfEmptyTime call_data.startedAt call.started_at
  let new_ended := fillIfEmptyTime call_data.endedAt call.ended_at
  let new_duration := if new_started.isSome ∧ new_ended.isSome ∧ durationFalsy call.duration_seconds
    then some (max 0 (new_ended.getD 0 - new_started.getD 0))
    else call.duration_seconds
  let c : Call := { call with
    status := new_status
    transcript := new_transcript
    summary := new_summary
    analysis := new_analysis
    metadata := enriched_meta
    started_at := new_started
    ended_at := new_ended
    duration_seconds := new_duration }
  let fields := ["updated_at"]
    ++ (if new_status ≠ call.status then ["status"] else [])
    ++ (if transcript ≠ "" ∧ call.transcript = "" then ["transcript"] else [])
    ++ (if summary ≠ "" ∧ call.summary = "" then ["summary"] else [])
    ++ (if merged_nonempty ∧ analysisEmpty call.analysis then ["analysis"] else [])
    ++ (if enriched_meta ≠ call.metadata then ["metadata"] else [])
    ++ (if call_data.startedAt.isSome ∧ call.started_at = none then ["started_at"] else [])
    ++ (if call_data.endedAt.isSome ∧ call.ended_at = none then ["ended_at"] else [])
    ++ (if new_started.isSome ∧ new_ended.isSome ∧ durationFalsy call.duration_seconds
        then ["duration_seconds"] else [])
  (c, fields)

/-! ### calls.py — create, read-with-sync, cancel -/

/-- Vapi create-call response: the code reads only `vapi_response.get("id")`. -/
structure VapiCreateResponse where
  id : Option String := none
deriving DecidableEq, Repr

/-- Provider step of `create_call` (lines after the pending row is inserted):
on success the row is promoted to queued with the provider id recorded; on a
provider exception the row is marked failed with the error text and the
exception is re-raised (the second component). -/
def Calls.create_call_vapi_step (call : Call) (vapi_response : Except String VapiCreateResponse) :
    Call × Option String :=
  match vapi_response with
  | .ok resp =>
    ({ call with vapi_call_id := resp.id.getD "", status := CallStatus.QUEUED }, none)
  | .error exc =>
    ({ call with status := CallStatus.FAILED, error_message := exc }, some exc)

/-- Opportunistic-sync part of `get_call`: when the call is active and has a
provider id, one best-effort fetch is reconciled in; a fetch failure is
swallowed and the stale record returned. -/
def Calls.get_call_sync (call : Call) (fetch : Except Unit VapiData) : Call :=
  if call.status ∈ ACTIVE_STATUSES ∧ call.vapi_call_id ≠ "" then
    match fetch with
    | .ok vapi_data => (Calls.reconcile_call_from_vapi call vapi_data).1
    | .error _ => call
  else call

/-- Keyword classification body shared by the two `_map_ended_reason` copies,
as a function of the already-normalized reason string (proof support: the
source inlines this body after computing `reason_lower`). -/
def classifyReason (reason_lower current_status : String) : String :=
  if strContains reason_lower "busy" then CallStatus.BUSY
  else if strContains reason_lower "no_answer" || strContains reason_lower "did_not_answer" then
    CallStatus.NO_ANSWER
  else if strContains reason_lower "voicemail" then CallStatus.VOICEMAIL
  else if strContains reason_lower "error" then CallStatus.FAILED
  else if strContains reason_lower "silence" then CallStatus.COMPLETED
  else if current_status ∈ TERMINAL_STATUSES then current_status
  else CallStatus.COMPLETED

/-- Modelled from the spec: the end-reason classifier exactly as section 4.2
words it (case-insensitive, hyphen-normalized substring checks in the fixed
priority order), for comparison with the source classifier. -/
def specEndReasonClassifier (reason current_status : String) : String :=
  let normalized := String.mk (reason.data.map fun c => if c == '-' then '_' else c.toLower)
  if strContains normalized "busy" then "busy"
  else if strContains normalized "no_answer" || strContains normalized "did_not_answer" then
    "no-answer"
  else if strContains normalized "voicemail" then "voicemail"
  else if strContains normalized "error" then "failed"
  else if strContains normalized "silence" then "completed"
  else if current_status ∈ TERMINAL_STATUSES then current_status
  else "completed"

/-- Keyword-match side condition of the end-reason classifier: true when the
normalized reason contains any of the six substrings the classifier keys on. -/
def reasonMatchesKeyword (reason : String) : Bool :=
  let rl := lowerReplace reason
  strContains rl "busy" || strContains rl "no_answer" || strContains rl "did_not_answer" ||
    strContains rl "voicemail" || strContains rl "error" || strContains rl "silence"

/-- Outcome of `cancel_call`, carrying the persisted record in every case. -/
inductive CancelResult where
  | cancelled (final : Call)
  | notCancellable (final : Call)
  | providerError (final : Call)
deriving DecidableEq, Repr

/-- Source `calls.services.calls.cancel_call`: first `get_call` (which runs the
opportunistic sync), then the terminal and provider-id checks, then the stop
request (whose failure propagates), then the cancelled write. -/
def Calls.cancel_call (call : Call) (fetch : Except Unit VapiData) (end_call_ok : Bool) :
    CancelResult :=
  let c := Calls.get_call_sync call fetch
  if c.status ∈ TERMINAL_STATUSES then .notCancellable c
  else if c.vapi_call_id = "" then .notCancellable c
  else if ¬ end_call_ok then .providerError c
  else .cancelled { c with status := CallStatus.CANCELLED }

end BoostedCalls

/-! ## Supporting lemmas -/

namespace BoostedCalls

attribute [ext] Call Metadata

theorem map_ended_reason_eq_classify (reason s : String) :
    Calls.map_ended_reason reason s = classifyReason (lowerReplace reason) s := by
  by_cases h : reason = ""
  · subst h; rfl
  · unfold Calls.map_ended_reason classifyReason
    simp [h]

theorem webhook_map_eq_calls (reason s : String) :
    Webhook.map_ended_reason reason s = Calls.map_ended_reason reason s := rfl

theorem webhook_guard_eq_calls (current new : String) :
    Webhook.is_valid_transition current new = Calls.is_valid_status_transition current new := rfl

theorem map_ended_reason_eq_spec (reason s : String) :
    Calls.map_ended_reason reason s = specEndReasonClassifier reason s :=
  (map_ended_reason_eq_classify reason s).trans rfl

theorem classify_mem_terminal (rl s : String) :
    classifyReason rl s ∈ TERMINAL_STATUSES := by
  unfold classifyReason
  repeat' split
  all_goals first | assumption | decide

theorem classify_idem (rl s : String) :
    classifyReason rl (classifyReason rl s) = classifyReason rl s := by
  have hterm := classify_mem_terminal rl s
  by_cases h1 : strContains rl "busy" = true
  · simp [classifyReason, h1]
  · by_cases h2 : (strContains rl "no_answer" || strContains rl "did_not_answer") = true
    · simp [classifyReason, h1, h2]
    · by_cases h3 : strContains rl "voicemail" = true
      · simp [classifyReason, h1, h2, h3]
      · by_cases h4 : strContains rl "error" = true
        · simp [classifyReason, h1, h2, h3, h4]
        · by_cases h5 : strContains rl "silence" = true
          · simp [classifyReason, h1, h2, h3, h4, h5]
          · have hfix : ∀ X, X ∈ TERMINAL_STATUSES → classifyReason rl X = X := by
              intro X hX
              simp [classifyReason, h1, h2, h3, h4, h5, hX]
            exact hfix _ hterm

theorem map_ended_reason_mem_terminal (reason s : String) :
    Calls.map_ended_reason reason s ∈ TERMINAL_STATUSES := by
  rw [map_ended_reason_eq_classify]
  exact classify_mem_terminal _ _

theorem map_ended_reason_idem (reason s : String) :
    Calls.map_ended_reason reason (Calls.map_ended_reason reason s) =
      Calls.map_ended_reason reason s := by
  rw [map_ended_reason_eq_classify, map_ended_reason_eq_classify]
  exact classify_idem _ _

theorem map_ended_reason_no_keyword (reason : String) {s : String}
    (hk : reasonMatchesKeyword reason = false) (hs : s ∈ TERMINAL_STATUSES) :
    Calls.map_ended_reason reason s = s := by
  rw [map_ended_reason_eq_classify]
  simp only [reasonMatchesKeyword, Bool.or_eq_false_iff] at hk
  obtain ⟨⟨⟨⟨⟨h1, h2⟩, h3⟩, h4⟩, h5⟩, h6⟩ := hk
  simp [classifyReason, h1, h2, h3, h4, h5, h6, hs]

theorem terminal_order {t : String} (h : t ∈ TERMINAL_STATUSES) : statusOrderGet t = 10 := by
  fin_cases h <;> rfl

theorem terminal_not_active {t : String} (h : t ∈ TERMINAL_STATUSES) : t ∉ ACTIVE_STATUSES := by
  fin_cases h <;> decide

theorem guard_refl (s : String) : Calls.is_valid_status_transition s s = true := by
  simp only [Calls.is_valid_status_transition]
  split
  · rfl
  · simp

theorem guard_terminal (s : String) {t : String} (h : t ∈ TERMINAL_STATUSES) :
    Calls.is_valid_status_transition s t = true := by
  simp only [Calls.is_valid_status_transition]
  rw [terminal_order h]
  simp

theorem fillIfEmptyTime_idem (v o : Option Int) :
    fillIfEmptyTime v (fillIfEmptyTime v o) = fillIfEmptyTime v o := by
  unfold fillIfEmptyTime
  by_cases h1 : v.isSome ∧ o = none
  · rcases h1 with ⟨hv, ho⟩
    rcases v with _ | t
    · simp at hv
    · simp [ho]
  · simp [h1]

theorem fillIfEmptyStr_idem (v o : String) :
    fillIfEmptyStr v (fillIfEmptyStr v o) = fillIfEmptyStr v o := by
  unfold fillIfEmptyStr
  by_cases h1 : v ≠ "" ∧ o = ""
  · simp [h1, h1.1]
  · simp [h1]

theorem fillIfEmptyTime_of_set (v : Option Int) {o : Option Int} (h : o ≠ none) :
    fillIfEmptyTime v o = o := by
  unfold fillIfEmptyTime
  simp [h]

theorem fillIfEmptyStr_of_set (v : String) {o : String} (h : o ≠ "") :
    fillIfEmptyStr v o = o := by
  unfold fillIfEmptyStr
  simp [h]

theorem calls_enrich_idem (m : Metadata) (d : VapiData) :
    Calls.enrich_metadata (Calls.enrich_metadata m d) d = Calls.enrich_metadata m d := by
  unfold Calls.enrich_metadata
  by_cases h1 : d.recordingUrl ≠ "" <;> by_cases h2 : d.stereoRecordingUrl ≠ "" <;>
    by_cases h3 : d.messages ≠ [] <;> by_cases h4 : d.cost.isSome = true <;>
    by_cases h5 : d.costBreakdown ≠ "" <;>
    simp [h1, h2, h3, h4, h5]

theorem webhook_enrich_idem (m : Metadata) (msg : WebhookMessage) :
    Webhook.enrich_metadata (Webhook.enrich_metadata m msg) msg =
      Webhook.enrich_metadata m msg := by
  unfold Webhook.enrich_metadata
  by_cases h1 : (if msg.recordingUrl ≠ "" then msg.recordingUrl else msg.call.recordingUrl) ≠ "" <;>
    by_cases h2 : (if msg.stereoRecordingUrl ≠ "" then msg.stereoRecordingUrl
      else msg.call.stereoRecordingUrl) ≠ "" <;>
    by_cases h3 : (if msg.messages ≠ [] then msg.messages else msg.call.messages) ≠ [] <;>
    by_cases h4 : (if msg.call.cost.isSome then msg.call.cost else msg.cost).isSome = true <;>
    by_cases h5 : (if msg.call.costBreakdown ≠ "" then msg.call.costBreakdown
      else msg.costBreakdown) ≠ "" <;>
    simp only [h1, h2, h3, h4, h5, if_true, if_false, ite_not] <;>
    simp_all

theorem duration_step_idem (s e old : Option Int) :
    (if s.isSome ∧ e.isSome ∧ durationFalsy
        (if s.isSome ∧ e.isSome ∧ durationFalsy old then some (max 0 (e.getD 0 - s.getD 0)) else old)
      then some (max 0 (e.getD 0 - s.getD 0))
      else (if s.isSome ∧ e.isSome ∧ durationFalsy old then some (max 0 (e.getD 0 - s.getD 0)) else old)) =
    (if s.isSome ∧ e.isSome ∧ durationFalsy old then some (max 0 (e.getD 0 - s.getD 0)) else old) := by
  by_cases h : s.isSome ∧ e.isSome ∧ durationFalsy old
  · simp only [h, if_true]
    by_cases hm : max 0 (e.getD 0 - s.getD 0) = 0
    · simp [h.1, h.2.1, durationFalsy, hm]
    · simp [durationFalsy, hm]
  · simp [h]

theorem analysisEmpty_some_false {a : List (String × String)} {b : List (String × StructEntry)}
    (h : a ≠ [] ∨ b ≠ []) : analysisEmpty (some ⟨a, b⟩) = false := by
  rcases h with h | h <;> simp [analysisEmpty, h]

theorem analysis_step_idem (aobj : List (String × String)) (so : List (String × StructEntry))
    (old : Option AnalysisVal) :
    (if (aobj ≠ [] ∨ so ≠ []) ∧ analysisEmpty
        (if (aobj ≠ [] ∨ so ≠ []) ∧ analysisEmpty old = true then some ⟨aobj, so⟩ else old) = true
      then some ⟨aobj, so⟩
      else (if (aobj ≠ [] ∨ so ≠ []) ∧ analysisEmpty old = true then some ⟨aobj, so⟩ else old)) =
    (if (aobj ≠ [] ∨ so ≠ []) ∧ analysisEmpty old = true then some ⟨aobj, so⟩ else old) := by
  by_cases hc : (aobj ≠ [] ∨ so ≠ []) ∧ analysisEmpty old = true
  · rw [if_pos hc]
    exact ite_self _
  · rw [if_neg hc, if_neg hc]

theorem apply_vapi_fields_idem (call : Call) (d : VapiData) (ns : String) :
    (Calls.apply_vapi_fields (Calls.apply_vapi_fields call d ns).1 d ns).1 =
      (Calls.apply_vapi_fields call d ns).1 := by
  unfold Calls.apply_vapi_fields
  refine Call.ext rfl rfl ?_ ?_ ?_ ?_ ?_ ?_ ?_ rfl
  · exact fillIfEmptyStr_idem _ _
  · exact fillIfEmptyStr_idem _ _
  · exact analysis_step_idem _ _ _
  · exact fillIfEmptyTime_idem _ _
  · exact fillIfEmptyTime_idem _ _
  · rw [fillIfEmptyTime_idem, fillIfEmptyTime_idem]
    exact duration_step_idem _ _ _
  · exact calls_enrich_idem _ _

theorem pull_candidate_status_of_status (c c' : Call) (d : VapiData)
    (h : c'.status = Calls.pull_candidate_status c d) :
    Calls.pull_candidate_status c' d = Calls.pull_candidate_status c d := by
  by_cases h1 : d.status = "ended"
  · have e1 : ∀ c0 : Call, Calls.pull_candidate_status c0 d =
        Calls.map_ended_reason d.endedReason c0.status := by
      intro c0; unfold Calls.pull_candidate_status; rw [if_pos h1]
    rw [e1 c] at h
    rw [e1 c', e1 c, h, map_ended_reason_idem]
  · by_cases h2 : d.status = ""
    · have e1 : ∀ c0 : Call, Calls.pull_candidate_status c0 d = c0.status := by
        intro c0; unfold Calls.pull_candidate_status
        rw [if_neg h1, if_neg (by simp [h2])]
      rw [e1 c] at h
      rw [e1 c', e1 c]
      exact h
    · have e1 : ∀ c0 : Call, Calls.pull_candidate_status c0 d = d.status := by
        intro c0; unfold Calls.pull_candidate_status
        rw [if_neg h1, if_pos h2]
      rw [e1 c', e1 c]

theorem pull_reconcile_idem (call : Call) (d : VapiData) :
    (Calls.reconcile_call_from_vapi (Calls.reconcile_call_from_vapi call d).1 d).1 =
      (Calls.reconcile_call_from_vapi call d).1 := by
  by_cases hg : Calls.is_valid_status_transition call.status
      (Calls.pull_candidate_status call d) = true
  · have h1 : Calls.reconcile_call_from_vapi call d =
        Calls.apply_vapi_fields call d (Calls.pull_candidate_status call d) := by
      simp only [Calls.reconcile_call_from_vapi]
      rw [if_pos hg]
    rw [h1]
    have hcand := pull_candidate_status_of_status call
      (Calls.apply_vapi_fields call d (Calls.pull_candidate_status call d)).1 d rfl
    simp only [Calls.reconcile_call_from_vapi]
    rw [hcand]
    rw [show (Calls.apply_vapi_fields call d (Calls.pull_candidate_status call d)).1.status =
      Calls.pull_candidate_status call d from rfl]
    rw [if_pos (guard_refl _)]
    exact apply_vapi_fields_idem call d _
  · have h1 : Calls.reconcile_call_from_vapi call d = (call, []) := by
      simp only [Calls.reconcile_call_from_vapi]
      rw [if_neg hg]
    rw [h1, h1]

theorem eoc_report_idem (call : Call) (msg : WebhookMessage) :
    (Webhook.handle_end_of_call_report (Webhook.handle_end_of_call_report call msg).1 msg).1 =
      (Webhook.handle_end_of_call_report call msg).1 := by
  unfold Webhook.handle_end_of_call_report
  simp only []
  refine Call.ext ?_ rfl ?_ ?_ ?_ ?_ ?_ ?_ ?_ rfl
  · exact map_ended_reason_idem _ _
  · exact fillIfEmptyStr_idem _ _
  · exact fillIfEmptyStr_idem _ _
  · exact analysis_step_idem _ _ _
  · exact fillIfEmptyTime_idem _ _
  · exact fillIfEmptyTime_idem _ _
  · rw [fillIfEmptyTime_idem, fillIfEmptyTime_idem]
    exact duration_step_idem _ _ _
  · exact webhook_enrich_idem _ _

end BoostedCalls

namespace BoostedCalls

theorem reconcile_accepted (call : Call) (d : VapiData)
    (h : Calls.is_valid_status_transition call.status (Calls.pull_candidate_status call d) = true) :
    Calls.reconcile_call_from_vapi call d =
      Calls.apply_vapi_fields call d (Calls.pull_candidate_status call d) := by
  simp only [Calls.reconcile_call_from_vapi]
  rw [if_pos h]

theorem reconcile_rejected (call : Call) (d : VapiData)
    (h : ¬ Calls.is_valid_status_transition call.status
      (Calls.pull_candidate_status call d) = true) :
    Calls.reconcile_call_from_vapi call d = (call, []) := by
  simp only [Calls.reconcile_call_from_vapi]
  rw [if_neg h]

theorem apply_started_at (call : Call) (d : VapiData) (ns : String) :
    (Calls.apply_vapi_fields call d ns).1.started_at =
      fillIfEmptyTime d.startedAt call.started_at := rfl

theorem apply_ended_at (call : Call) (d : VapiData) (ns : String) :
    (Calls.apply_vapi_fields call d ns).1.ended_at =
      fillIfEmptyTime d.endedAt call.ended_at := rfl

theorem apply_duration (call : Call) (d : VapiData) (ns : String) :
    (Calls.apply_vapi_fields call d ns).1.duration_seconds =
      if (fillIfEmptyTime d.startedAt call.started_at).isSome ∧
          (fillIfEmptyTime d.endedAt call.ended_at).isSome ∧
          durationFalsy call.duration_seconds
      then some (max 0 ((fillIfEmptyTime d.endedAt call.ended_at).getD 0 -
        (fillIfEmptyTime d.startedAt call.started_at).getD 0))
      else call.duration_seconds := rfl

theorem eoc_started_at (call : Call) (msg : WebhookMessage) :
    (Webhook.handle_end_of_call_report call msg).1.started_at =
      fillIfEmptyTime msg.call.startedAt call.started_at := rfl

theorem eoc_ended_at (call : Call) (msg : WebhookMessage) :
    (Webhook.handle_end_of_call_report call msg).1.ended_at =
      fillIfEmptyTime msg.call.endedAt call.ended_at := rfl

theorem eoc_duration (call : Call) (msg : WebhookMessage) :
    (Webhook.handle_end_of_call_report call msg).1.duration_seconds =
      if (fillIfEmptyTime msg.call.startedAt call.started_at).isSome ∧
          (fillIfEmptyTime msg.call.endedAt call.ended_at).isSome ∧
          durationFalsy call.duration_seconds
      then some (max 0 ((fillIfEmptyTime msg.call.endedAt call.ended_at).getD 0 -
        (fillIfEmptyTime msg.call.startedAt call.started_at).getD 0))
      else call.duration_seconds := rfl

theorem apply_transcript (call : Call) (d : VapiData) (ns : String) :
    (Calls.apply_vapi_fields call d ns).1.transcript =
      fillIfEmptyStr (if d.transcript ≠ "" then d.transcript else d.artifactTranscript)
        call.transcript := rfl

theorem apply_summary (call : Call) (d : VapiData) (ns : String) :
    (Calls.apply_vapi_fields call d ns).1.summary =
      fillIfEmptyStr (Calls.extract_summary d) call.summary := rfl

theorem apply_analysis (call : Call) (d : VapiData) (ns : String) :
    (Calls.apply_vapi_fields call d ns).1.analysis =
      if (d.analysis ≠ [] ∨ d.structuredOutputs ≠ []) ∧ analysisEmpty call.analysis = true
      then some ⟨d.analysis, d.structuredOutputs⟩ else call.analysis := rfl

theorem eoc_transcript (call : Call) (msg : WebhookMessage) :
    (Webhook.handle_end_of_call_report call msg).1.transcript =
      fillIfEmptyStr (if msg.transcript ≠ "" then msg.transcript else msg.artifactTranscript)
        call.transcript := rfl

theorem eoc_summary (call : Call) (msg : WebhookMessage) :
    (Webhook.handle_end_of_call_report call msg).1.summary =
      fillIfEmptyStr (Webhook.extract_summary_from_webhook msg) call.summary := rfl

theorem eoc_analysis (call : Call) (msg : WebhookMessage) :
    (Webhook.handle_end_of_call_report call msg).1.analysis =
      if ((if msg.analysis ≠ [] then msg.analysis else msg.call.analysis) ≠ [] ∨
          msg.structuredOutputs ≠ []) ∧ analysisEmpty call.analysis = true
      then some ⟨(if msg.analysis ≠ [] then msg.analysis else msg.call.analysis),
        msg.structuredOutputs⟩
      else call.analysis := rfl

end BoostedCalls

/-! ## Claim theorems -/

namespace BoostedCalls

/-- Claim C1, counterexample: a call already at terminal status completed,
reconciled against an end-of-call snapshot whose reason is customer-busy, has
its status rewritten to the different terminal value busy, on both channels. -/
theorem C1_counterexample :
    "completed" ∈ TERMINAL_STATUSES ∧ "busy" ∈ TERMINAL_STATUSES ∧
    (Calls.reconcile_call_from_vapi { status := "completed" }
      { status := "ended", endedReason := "customer-busy" }).1.status = "busy" ∧
    (Webhook.handle_end_of_call_report { status := "completed" }
      { endedReason := "customer-busy" }).1.status = "busy" := by
  refine ⟨by decide, by decide, by decide, by decide⟩

/-- Claim C1, amended: once the status is terminal, reconciling an end-of-call
snapshot leaves it unchanged provided the end reason matches none of the
classifier keywords; a keyword match may rewrite one terminal value into
another (as the counterexample shows). -/
theorem C1_terminal_status_preserved :
    (∀ (call : Call) (d : VapiData), call.status ∈ TERMINAL_STATUSES →
      d.status = "ended" → reasonMatchesKeyword d.endedReason = false →
      (Calls.reconcile_call_from_vapi call d).1.status = call.status)
    ∧ (∀ (call : Call) (msg : WebhookMessage), call.status ∈ TERMINAL_STATUSES →
      reasonMatchesKeyword msg.endedReason = false →
      (Webhook.handle_end_of_call_report call msg).1.status = call.status) := by
  constructor
  · intro call d ht hd hk
    have hcand : Calls.pull_candidate_status call d = call.status := by
      unfold Calls.pull_candidate_status
      rw [if_pos hd]
      exact map_ended_reason_no_keyword _ hk ht
    simp only [Calls.reconcile_call_from_vapi]
    rw [hcand, if_pos (guard_refl _)]
    rw [show (Calls.apply_vapi_fields call d call.status).1.status = call.status from rfl]
  · intro call msg ht hk
    show Webhook.map_ended_reason msg.endedReason call.status = call.status
    rw [webhook_map_eq_calls]
    exact map_ended_reason_no_keyword _ hk ht

/-- Claim C1, witness for the amended theorem at a concrete input: a cancelled
call stays cancelled under a customer-ended-call end report on both channels. -/
theorem C1_terminal_status_preserved_witness :
    (Calls.reconcile_call_from_vapi { status := "cancelled" }
      { status := "ended", endedReason := "customer-ended-call" }).1.status = "cancelled" ∧
    (Webhook.handle_end_of_call_report { status := "cancelled" }
      { endedReason := "customer-ended-call" }).1.status = "cancelled" :=
  ⟨C1_terminal_status_preserved.1 _ _ (by decide) rfl (by decide),
   C1_terminal_status_preserved.2 _ _ (by decide) (by decide)⟩

/-- Claim C2, counterexample: the same live-status information (status string
forwarding on a pending call) produces different final records on the two
channels — the push handler maps it to in-progress, the pull reconciler
writes the raw string forwarding. -/
theorem C2_counterexample :
    (Webhook.handle_status_update { status := "pending" }
      { status := "forwarding" }).1.status = "in-progress" ∧
    (Calls.reconcile_call_from_vapi { status := "pending" }
      { status := "forwarding" }).1.status = "forwarding" ∧
    "in-progress" ≠ "forwarding" := by
  refine ⟨by decide, by decide, by decide⟩

/-- Claim C2, amended: the shared semantics holds for the duplicated helpers
and for end-of-call snapshots — the end-reason classifier and the transition
guard are identical across the two modules, and an end-of-call snapshot yields
the same final status on the push and pull paths — but live-status snapshots
are not handled identically (see the counterexample). -/
theorem C2_push_pull_agreement :
    (∀ reason s, Webhook.map_ended_reason reason s = Calls.map_ended_reason reason s)
    ∧ (∀ current new, Webhook.is_valid_transition current new =
        Calls.is_valid_status_transition current new)
    ∧ (∀ (call : Call) (d : VapiData) (msg : WebhookMessage),
        d.status = "ended" → msg.endedReason = d.endedReason →
        (Webhook.handle_end_of_call_report call msg).1.status =
          (Calls.reconcile_call_from_vapi call d).1.status) := by
  refine ⟨webhook_map_eq_calls, webhook_guard_eq_calls, ?_⟩
  intro call d msg hd hr
  have hcand : Calls.pull_candidate_status call d =
      Calls.map_ended_reason d.endedReason call.status := by
    unfold Calls.pull_candidate_status
    rw [if_pos hd]
  have hacc : Calls.reconcile_call_from_vapi call d =
      Calls.apply_vapi_fields call d (Calls.pull_candidate_status call d) := by
    simp only [Calls.reconcile_call_from_vapi]
    rw [if_pos]
    rw [hcand]
    exact guard_terminal _ (map_ended_reason_mem_terminal _ _)
  rw [hacc]
  rw [show (Calls.apply_vapi_fields call d (Calls.pull_candidate_status call d)).1.status =
    Calls.pull_candidate_status call d from rfl]
  rw [hcand]
  show Webhook.map_ended_reason msg.endedReason call.status =
    Calls.map_ended_reason d.endedReason call.status
  rw [webhook_map_eq_calls, hr]

/-- Claim C2, witness for the amended theorem at concrete inputs. -/
theorem C2_push_pull_agreement_witness :
    Webhook.map_ended_reason "customer-busy" "queued" =
      Calls.map_ended_reason "customer-busy" "queued" ∧
    Webhook.is_valid_transition "queued" "ringing" =
      Calls.is_valid_status_transition "queued" "ringing" ∧
    (Webhook.handle_end_of_call_report { status := "in-progress" }
        { endedReason := "voicemail" }).1.status =
      (Calls.reconcile_call_from_vapi { status := "in-progress" }
        { status := "ended", endedReason := "voicemail" }).1.status :=
  ⟨C2_push_pull_agreement.1 _ _, C2_push_pull_agreement.2.1 _ _,
   C2_push_pull_agreement.2.2 _ _ _ rfl rfl⟩

/-- Claim C3: over the canonical status lattice the transition guard is true
exactly when the candidate's order is 10 or at least the current order; and a
push status-update reporting queued on an in-progress call mutates nothing
(the handler returns the unchanged record and an empty change set). -/
theorem C3_transition_guard :
    (∀ current ∈ CallStatus.values, ∀ candidate ∈ CallStatus.values,
      (Calls.is_valid_status_transition current candidate = true ↔
        (statusOrderGet candidate = 10 ∨ statusOrderGet candidate ≥ statusOrderGet current)))
    ∧ (∀ (call : Call) (msg : WebhookMessage), call.status = "in-progress" →
      msg.status = "queued" → Webhook.handle_status_update call msg = (call, [])) := by
  constructor
  · decide
  · intro call msg h1 h2
    unfold Webhook.handle_status_update
    rw [h2, h1]
    rw [show ((VAPI_STATUS_MAP.lookup "queued").getD "") = "queued" from rfl]
    rw [if_neg (by decide)]
    rw [show Webhook.is_valid_transition "in-progress" "queued" = false from rfl]
    simp

/-- Claim C3, witness for the guard characterization and the no-op scenario at
concrete inputs. -/
theorem C3_transition_guard_witness :
    (Calls.is_valid_status_transition "in-progress" "queued" = true ↔
      (statusOrderGet "queued" = 10 ∨ statusOrderGet "queued" ≥ statusOrderGet "in-progress")) ∧
    Webhook.handle_status_update { status := "in-progress" } { status := "queued" } =
      ({ status := "in-progress" }, []) :=
  ⟨C3_transition_guard.1 "in-progress" (by decide) "queued" (by decide),
   C3_transition_guard.2 _ _ rfl rfl⟩

/-- Claim C4: the end-reason classifier agrees everywhere with the priority
rules as the spec words them, and on each of the named example inputs,
including busy taking priority over error. -/
theorem C4_end_reason_classification :
    (∀ reason current_status, Calls.map_ended_reason reason current_status =
      specEndReasonClassifier reason current_status)
    ∧ Calls.map_ended_reason "customer-busy" "in-progress" = "busy"
    ∧ Calls.map_ended_reason "customer-did-not-answer" "in-progress" = "no-answer"
    ∧ Calls.map_ended_reason "silence-timed-out" "in-progress" = "completed"
    ∧ Calls.map_ended_reason "assistant-error" "in-progress" = "failed"
    ∧ Calls.map_ended_reason "hangup" "in-progress" = "completed"
    ∧ Calls.map_ended_reason "hangup" "failed" = "failed"
    ∧ Calls.map_ended_reason "customer-busy-error" "queued" = "busy" :=
  ⟨map_ended_reason_eq_spec, by decide, by decide, by decide, by decide,
   by decide, by decide, by decide⟩


/-- Claim C5, counterexample: applying the same end-of-call snapshot twice
leaves the record fixed, but the second application's change set is not empty —
it still lists status and updated_at even though no value changed, so the
change set does not contain exactly the fields whose values actually changed. -/
theorem C5_counterexample :
    (Calls.reconcile_call_from_vapi
        (Calls.reconcile_call_from_vapi { status := "in-progress" }
          { status := "ended", endedReason := "hangup" }).1
        { status := "ended", endedReason := "hangup" }).1 =
      (Calls.reconcile_call_from_vapi { status := "in-progress" }
        { status := "ended", endedReason := "hangup" }).1 ∧
    (Calls.reconcile_call_from_vapi
        (Calls.reconcile_call_from_vapi { status := "in-progress" }
          { status := "ended", endedReason := "hangup" }).1
        { status := "ended", endedReason := "hangup" }).2 = ["status", "updated_at"] ∧
    (Calls.reconcile_call_from_vapi
        (Calls.reconcile_call_from_vapi { status := "in-progress" }
          { status := "ended", endedReason := "hangup" }).1
        { status := "ended", endedReason := "hangup" }).1.status =
      (Calls.reconcile_call_from_vapi { status := "in-progress" }
        { status := "ended", endedReason := "hangup" }).1.status := by
  refine ⟨by decide, by decide, by decide⟩

/-- Claim C5, amended: reconciliation is idempotent on the record — applying
the same snapshot twice yields the same final record as applying it once, on
both the pull reconciler and the push end-of-call handler — but the second
application's change set is not empty (see the counterexample). -/
theorem C5_reconciliation_idempotent_on_record :
    (∀ (call : Call) (d : VapiData),
      (Calls.reconcile_call_from_vapi (Calls.reconcile_call_from_vapi call d).1 d).1 =
        (Calls.reconcile_call_from_vapi call d).1)
    ∧ (∀ (call : Call) (msg : WebhookMessage),
      (Webhook.handle_end_of_call_report (Webhook.handle_end_of_call_report call msg).1 msg).1 =
        (Webhook.handle_end_of_call_report call msg).1) :=
  ⟨pull_reconcile_idem, eoc_report_idem⟩

/-- Claim C6, counterexample: on the pull path a live status string outside
the mapped provider statuses (scheduled, which Vapi emits but VAPI_STATUS_MAP
omits) is not normalized to a no-change — it is written verbatim into the
record of a pending call, leaving the status outside the canonical lattice. -/
theorem C6_counterexample :
    VAPI_STATUS_MAP.lookup "scheduled" = none ∧
    (Calls.reconcile_call_from_vapi { status := "pending" }
      { status := "scheduled" }).1.status = "scheduled" ∧
    "scheduled" ∉ CallStatus.values := by
  refine ⟨by decide, by decide, by decide⟩

/-- Claim C6, amended: the push handler skips snapshots whose status string is
not in VAPI_STATUS_MAP, as the claim states; the pull reconciler instead
passes the raw string through the order guard — an unknown string (order 0) is
rejected whenever the current status has positive order, but is written
verbatim from order-0 states such as pending (see the counterexample). -/
theorem C6_unknown_status_normalization :
    (∀ (call : Call) (msg : WebhookMessage), VAPI_STATUS_MAP.lookup msg.status = none →
      Webhook.handle_status_update call msg = (call, []))
    ∧ (∀ (call : Call) (d : VapiData), d.status ≠ "ended" → d.status ≠ "" →
      STATUS_ORDER.lookup d.status = none → statusOrderGet call.status ≠ 0 →
      Calls.reconcile_call_from_vapi call d = (call, [])) := by
  constructor
  · intro call msg h
    unfold Webhook.handle_status_update
    rw [h]
    rfl
  · intro call d h1 h2 h3 h4
    have hcand : Calls.pull_candidate_status call d = d.status := by
      unfold Calls.pull_candidate_status
      rw [if_neg h1, if_pos h2]
    have hguard : Calls.is_valid_status_transition call.status d.status = false := by
      simp only [statusOrderGet] at h4
      simp only [Calls.is_valid_status_transition, statusOrderGet, h3, Option.getD_none]
      rw [if_neg (by norm_num)]
      simp only [decide_eq_false_iff_not]
      omega
    simp only [Calls.reconcile_call_from_vapi]
    rw [hcand, hguard]
    simp

/-- Claim C6, witness for the amended theorem at concrete inputs: the unknown
status scheduled is skipped by the push handler and rejected by the pull
reconciler on a queued call. -/
theorem C6_unknown_status_normalization_witness :
    Webhook.handle_status_update { status := "queued" } { status := "scheduled" } =
      ({ status := "queued" }, []) ∧
    Calls.reconcile_call_from_vapi { status := "queued" } { status := "scheduled" } =
      ({ status := "queued" }, []) :=
  ⟨C6_unknown_status_normalization.1 _ _ (by decide),
   C6_unknown_status_normalization.2 _ _ (by decide) (by decide) (by decide) (by decide)⟩


/-- Claim C7, counterexample: a record whose durationSeconds is already set to
0 has it recomputed (and changed) by reconciliation, because the code tests
Python falsiness rather than absence — so the duration is not computed only
when it is not already set. -/
theorem C7_counterexample :
    (Calls.reconcile_call_from_vapi
      { status := "in-progress", started_at := some 0, ended_at := some 5,
        duration_seconds := some 0 }
      { status := "" }).1.duration_seconds = some 5 := by decide

/-- Claim C7, amended: durationSeconds is computed when both timestamps are
present and the stored value is unset or 0 (Python falsiness); it then equals
the clamped whole-second difference of the merged timestamps; a non-zero
stored value is never recomputed, and without both timestamps it is left
unchanged — on both the pull and push paths. -/
theorem C7_duration_law :
    (∀ (call : Call) (d : VapiData) (k : Int), k ≠ 0 → call.duration_seconds = some k →
      (Calls.reconcile_call_from_vapi call d).1.duration_seconds = some k)
    ∧ (∀ (call : Call) (msg : WebhookMessage) (k : Int), k ≠ 0 →
      call.duration_seconds = some k →
      (Webhook.handle_end_of_call_report call msg).1.duration_seconds = some k)
    ∧ (∀ (call : Call) (d : VapiData),
      (Calls.reconcile_call_from_vapi call d).1.started_at = none ∨
        (Calls.reconcile_call_from_vapi call d).1.ended_at = none →
      (Calls.reconcile_call_from_vapi call d).1.duration_seconds = call.duration_seconds)
    ∧ (∀ (call : Call) (msg : WebhookMessage),
      (Webhook.handle_end_of_call_report call msg).1.started_at = none ∨
        (Webhook.handle_end_of_call_report call msg).1.ended_at = none →
      (Webhook.handle_end_of_call_report call msg).1.duration_seconds = call.duration_seconds)
    ∧ (∀ (call : Call) (d : VapiData) (s e : Int), durationFalsy call.duration_seconds →
      (Calls.reconcile_call_from_vapi call d).2 ≠ [] →
      (Calls.reconcile_call_from_vapi call d).1.started_at = some s →
      (Calls.reconcile_call_from_vapi call d).1.ended_at = some e →
      (Calls.reconcile_call_from_vapi call d).1.duration_seconds = some (max 0 (e - s)))
    ∧ (∀ (call : Call) (msg : WebhookMessage) (s e : Int),
      durationFalsy call.duration_seconds →
      (Webhook.handle_end_of_call_report call msg).1.started_at = some s →
      (Webhook.handle_end_of_call_report call msg).1.ended_at = some e →
      (Webhook.handle_end_of_call_report call msg).1.duration_seconds =
        some (max 0 (e - s))) := by
  refine ⟨?_, ?_, ?_, ?_, ?_, ?_⟩
  · intro call d k hk hdur
    by_cases hg : Calls.is_valid_status_transition call.status
        (Calls.pull_candidate_status call d) = true
    · rw [reconcile_accepted call d hg, apply_duration,
        if_neg (by simp [durationFalsy, hdur, hk])]
      exact hdur
    · rw [reconcile_rejected call d hg]
      exact hdur
  · intro call msg k hk hdur
    rw [eoc_duration, if_neg (by simp [durationFalsy, hdur, hk])]
    exact hdur
  · intro call d h
    by_cases hg : Calls.is_valid_status_transition call.status
        (Calls.pull_candidate_status call d) = true
    · rw [reconcile_accepted call d hg] at h ⊢
      rw [apply_started_at] at h
      rw [apply_ended_at] at h
      rw [apply_duration]
      rcases h with h | h
      · rw [if_neg (by simp [h])]
      · rw [if_neg (by simp [h])]
    · rw [reconcile_rejected call d hg]
  · intro call msg h
    rw [eoc_started_at] at h
    rw [eoc_ended_at] at h
    rw [eoc_duration]
    rcases h with h | h
    · rw [if_neg (by simp [h])]
    · rw [if_neg (by simp [h])]
  · intro call d s e hfalsy hne hs he
    by_cases hg : Calls.is_valid_status_transition call.status
        (Calls.pull_candidate_status call d) = true
    · rw [reconcile_accepted call d hg] at hs he ⊢
      rw [apply_started_at] at hs
      rw [apply_ended_at] at he
      rw [apply_duration, if_pos ⟨by simp [hs], by simp [he], hfalsy⟩]
      simp [hs, he]
    · rw [reconcile_rejected call d hg] at hne
      exact absurd rfl hne
  · intro call msg s e hfalsy hs he
    rw [eoc_started_at] at hs
    rw [eoc_ended_at] at he
    rw [eoc_duration, if_pos ⟨by simp [hs], by simp [he], hfalsy⟩]
    simp [hs, he]

/-- Claim C7, witness for the amended theorem at concrete inputs. -/
theorem C7_duration_law_witness :
    (Calls.reconcile_call_from_vapi { duration_seconds := some 7 } {}).1.duration_seconds =
      some 7 ∧
    (Webhook.handle_end_of_call_report { duration_seconds := some 7 } {}).1.duration_seconds =
      some 7 ∧
    (Calls.reconcile_call_from_vapi {} {}).1.duration_seconds = Call.duration_seconds {} ∧
    (Webhook.handle_end_of_call_report {} {}).1.duration_seconds = Call.duration_seconds {} ∧
    (Calls.reconcile_call_from_vapi { status := "queued" }
      { status := "ended", endedReason := "hangup", startedAt := some 10,
        endedAt := some 25 }).1.duration_seconds = some (max 0 (25 - 10)) ∧
    (Webhook.handle_end_of_call_report { status := "queued" }
      { endedReason := "hangup",
        call := { startedAt := some 10, endedAt := some 25 } }).1.duration_seconds =
      some (max 0 (25 - 10)) :=
  ⟨C7_duration_law.1 _ _ 7 (by decide) rfl,
   C7_duration_law.2.1 _ _ 7 (by decide) rfl,
   C7_duration_law.2.2.1 _ _ (Or.inl (by decide)),
   C7_duration_law.2.2.2.1 _ _ (Or.inl (by decide)),
   C7_duration_law.2.2.2.2.1 _ _ 10 25 (Or.inl rfl) (by decide) (by decide) (by decide),
   C7_duration_law.2.2.2.2.2 _ _ 10 25 (Or.inl rfl) (by decide) (by decide)⟩


/-- Claim C8: transcript, summary, analysis, startedAt and endedAt are
first-write-wins — whenever the stored value is non-empty (non-falsy), any
snapshot leaves it unchanged, on the pull reconciler, the push end-of-call
handler, and (for startedAt) the push status-update handler. -/
theorem C8_first_write_wins :
    (∀ (call : Call) (d : VapiData), call.transcript ≠ "" →
      (Calls.reconcile_call_from_vapi call d).1.transcript = call.transcript)
    ∧ (∀ (call : Call) (msg : WebhookMessage), call.transcript ≠ "" →
      (Webhook.handle_end_of_call_report call msg).1.transcript = call.transcript)
    ∧ (∀ (call : Call) (d : VapiData), call.summary ≠ "" →
      (Calls.reconcile_call_from_vapi call d).1.summary = call.summary)
    ∧ (∀ (call : Call) (msg : WebhookMessage), call.summary ≠ "" →
      (Webhook.handle_end_of_call_report call msg).1.summary = call.summary)
    ∧ (∀ (call : Call) (d : VapiData), analysisEmpty call.analysis = false →
      (Calls.reconcile_call_from_vapi call d).1.analysis = call.analysis)
    ∧ (∀ (call : Call) (msg : WebhookMessage), analysisEmpty call.analysis = false →
      (Webhook.handle_end_of_call_report call msg).1.analysis = call.analysis)
    ∧ (∀ (call : Call) (d : VapiData), call.started_at ≠ none →
      (Calls.reconcile_call_from_vapi call d).1.started_at = call.started_at)
    ∧ (∀ (call : Call) (msg : WebhookMessage), call.started_at ≠ none →
      (Webhook.handle_end_of_call_report call msg).1.started_at = call.started_at)
    ∧ (∀ (call : Call) (msg : WebhookMessage), call.started_at ≠ none →
      (Webhook.handle_status_update call msg).1.started_at = call.started_at)
    ∧ (∀ (call : Call) (d : VapiData), call.ended_at ≠ none →
      (Calls.reconcile_call_from_vapi call d).1.ended_at = call.ended_at)
    ∧ (∀ (call : Call) (msg : WebhookMessage), call.ended_at ≠ none →
      (Webhook.handle_end_of_call_report call msg).1.ended_at = call.ended_at) := by
  refine ⟨?_, ?_, ?_, ?_, ?_, ?_, ?_, ?_, ?_, ?_, ?_⟩
  · intro call d h
    by_cases hg : Calls.is_valid_status_transition call.status
        (Calls.pull_candidate_status call d) = true
    · rw [reconcile_accepted call d hg, apply_transcript]
      exact fillIfEmptyStr_of_set _ h
    · rw [reconcile_rejected call d hg]
  · intro call msg h
    rw [eoc_transcript]
    exact fillIfEmptyStr_of_set _ h
  · intro call d h
    by_cases hg : Calls.is_valid_status_transition call.status
        (Calls.pull_candidate_status call d) = true
    · rw [reconcile_accepted call d hg, apply_summary]
      exact fillIfEmptyStr_of_set _ h
    · rw [reconcile_rejected call d hg]
  · intro call msg h
    rw [eoc_summary]
    exact fillIfEmptyStr_of_set _ h
  · intro call d h
    by_cases hg : Calls.is_valid_status_transition call.status
        (Calls.pull_candidate_status call d) = true
    · rw [reconcile_accepted call d hg, apply_analysis, if_neg (by simp [h])]
    · rw [reconcile_rejected call d hg]
  · intro call msg h
    rw [eoc_analysis, if_neg (by simp [h])]
  · intro call d h
    by_cases hg : Calls.is_valid_status_transition call.status
        (Calls.pull_candidate_status call d) = true
    · rw [reconcile_accepted call d hg, apply_started_at]
      exact fillIfEmptyTime_of_set _ h
    · rw [reconcile_rejected call d hg]
  · intro call msg h
    rw [eoc_started_at]
    exact fillIfEmptyTime_of_set _ h
  · intro call msg h
    unfold Webhook.handle_status_update
    by_cases hm : (VAPI_STATUS_MAP.lookup msg.status).getD "" = ""
    · rw [if_pos hm]
    · rw [if_neg hm]
      by_cases hg : Webhook.is_valid_transition call.status
          ((VAPI_STATUS_MAP.lookup msg.status).getD "") = true
      · rw [if_pos hg]
        by_cases hip : ((VAPI_STATUS_MAP.lookup msg.status).getD "") = CallStatus.IN_PROGRESS ∧
            call.started_at = none
        · exact absurd hip.2 h
        · rw [if_neg hip]
      · rw [if_neg hg]
  · intro call d h
    by_cases hg : Calls.is_valid_status_transition call.status
        (Calls.pull_candidate_status call d) = true
    · rw [reconcile_accepted call d hg, apply_ended_at]
      exact fillIfEmptyTime_of_set _ h
    · rw [reconcile_rejected call d hg]
  · intro call msg h
    rw [eoc_ended_at]
    exact fillIfEmptyTime_of_set _ h

/-- Claim C8, witness at concrete inputs: every first-write-wins field with a
non-empty stored value survives a snapshot carrying a different value. -/
theorem C8_first_write_wins_witness :
    (Calls.reconcile_call_from_vapi { transcript := "kept" }
      { transcript := "new" }).1.transcript = "kept" ∧
    (Webhook.handle_end_of_call_report { transcript := "kept" }
      { transcript := "new" }).1.transcript = "kept" ∧
    (Calls.reconcile_call_from_vapi { summary := "kept" }
      { summary := "new" }).1.summary = "kept" ∧
    (Webhook.handle_end_of_call_report { summary := "kept" }
      { summary := "new" }).1.summary = "kept" ∧
    (Calls.reconcile_call_from_vapi { analysis := some ⟨[("k", "v")], []⟩ }
      { analysis := [("k", "w")] }).1.analysis = some ⟨[("k", "v")], []⟩ ∧
    (Webhook.handle_end_of_call_report { analysis := some ⟨[("k", "v")], []⟩ }
      { analysis := [("k", "w")] }).1.analysis = some ⟨[("k", "v")], []⟩ ∧
    (Calls.reconcile_call_from_vapi { started_at := some 3 }
      { startedAt := some 9 }).1.started_at = some 3 ∧
    (Webhook.handle_end_of_call_report { started_at := some 3 }
      { call := { startedAt := some 9 } }).1.started_at = some 3 ∧
    (Webhook.handle_status_update { status := "ringing", started_at := some 3 }
      { status := "in-progress", timestamp := some 9 }).1.started_at = some 3 ∧
    (Calls.reconcile_call_from_vapi { ended_at := some 4 }
      { endedAt := some 9 }).1.ended_at = some 4 ∧
    (Webhook.handle_end_of_call_report { ended_at := some 4 }
      { call := { endedAt := some 9 } }).1.ended_at = some 4 :=
  ⟨C8_first_write_wins.1 _ _ (by decide),
   C8_first_write_wins.2.1 _ _ (by decide),
   C8_first_write_wins.2.2.1 _ _ (by decide),
   C8_first_write_wins.2.2.2.1 _ _ (by decide),
   C8_first_write_wins.2.2.2.2.1 _ _ (by decide),
   C8_first_write_wins.2.2.2.2.2.1 _ _ (by decide),
   C8_first_write_wins.2.2.2.2.2.2.1 _ _ (by decide),
   C8_first_write_wins.2.2.2.2.2.2.2.1 _ _ (by decide),
   C8_first_write_wins.2.2.2.2.2.2.2.2.1 _ _ (by decide),
   C8_first_write_wins.2.2.2.2.2.2.2.2.2.1 _ _ (by decide),
   C8_first_write_wins.2.2.2.2.2.2.2.2.2.2 _ _ (by decide)⟩


/-- Claim C9: when the provider create-call request raises, the just-created
row is marked failed with the error text recorded before the error is
re-raised, and in no execution does the provider step leave the row pending. -/
theorem C9_create_call_failure_path :
    (∀ (call : Call) (exc : String),
      Calls.create_call_vapi_step call (Except.error exc) =
        ({ call with status := "failed", error_message := exc }, some exc))
    ∧ (∀ (call : Call) (vapi_response : Except String VapiCreateResponse),
      (Calls.create_call_vapi_step call vapi_response).1.status ≠ "pending") := by
  constructor
  · intro call exc
    rfl
  · intro call vapi_response
    cases vapi_response <;> simp [Calls.create_call_vapi_step, CallStatus.QUEUED, CallStatus.FAILED]

/-- Claim C10: cancel_call first runs the opportunistic sync of get_call; a
call already terminal is not synced at all; when the synced record is terminal
or lacks a provider id the call is reported not cancellable and the persisted
record is exactly the synced record (never written to cancelled); a cancelled
outcome occurs only when the synced record is non-terminal with a provider id
and the stop request succeeded, and then the persisted record is the synced
record with status cancelled. -/
theorem C10_cancel_call_behavior :
    (∀ (call : Call) (fetch : Except Unit VapiData), call.status ∈ TERMINAL_STATUSES →
      Calls.get_call_sync call fetch = call)
    ∧ (∀ (call : Call) (fetch : Except Unit VapiData) (end_call_ok : Bool),
      (Calls.get_call_sync call fetch).status ∈ TERMINAL_STATUSES ∨
        (Calls.get_call_sync call fetch).vapi_call_id = "" →
      Calls.cancel_call call fetch end_call_ok =
        CancelResult.notCancellable (Calls.get_call_sync call fetch))
    ∧ (∀ (call : Call) (fetch : Except Unit VapiData) (end_call_ok : Bool) (final : Call),
      Calls.cancel_call call fetch end_call_ok = CancelResult.cancelled final →
      (Calls.get_call_sync call fetch).status ∉ TERMINAL_STATUSES ∧
        (Calls.get_call_sync call fetch).vapi_call_id ≠ "" ∧ end_call_ok = true ∧
        final = { Calls.get_call_sync call fetch with status := "cancelled" }) := by
  refine ⟨?_, ?_, ?_⟩
  · intro call fetch h
    unfold Calls.get_call_sync
    rw [if_neg (fun hc => terminal_not_active h hc.1)]
  · intro call fetch end_call_ok h
    unfold Calls.cancel_call
    by_cases ht : (Calls.get_call_sync call fetch).status ∈ TERMINAL_STATUSES
    · rw [if_pos ht]
    · rcases h with h | h
      · exact absurd h ht
      · rw [if_neg ht, if_pos h]
  · intro call fetch end_call_ok final h
    unfold Calls.cancel_call at h
    by_cases ht : (Calls.get_call_sync call fetch).status ∈ TERMINAL_STATUSES
    · rw [if_pos ht] at h
      exact CancelResult.noConfusion h
    · rw [if_neg ht] at h
      by_cases hid : (Calls.get_call_sync call fetch).vapi_call_id = ""
      · rw [if_pos hid] at h
        exact CancelResult.noConfusion h
      · rw [if_neg hid] at h
        by_cases hok : end_call_ok = true
        · rw [if_neg (by simp [hok])] at h
          refine ⟨ht, hid, hok, ?_⟩
          have := CancelResult.cancelled.inj h
          exact this.symm
        · rw [if_pos (by simp [hok])] at h
          exact CancelResult.noConfusion h

/-- Claim C10, witness at concrete inputs: a completed call is untouched by
the sync and reported not cancellable; a queued call with a provider id whose
sync fetch fails is cancelled with the stop request succeeding. -/
theorem C10_cancel_call_behavior_witness :
    Calls.get_call_sync { status := "completed" } (Except.error ()) = { status := "completed" } ∧
    Calls.cancel_call { status := "completed" } (Except.error ()) true =
      CancelResult.notCancellable (Calls.get_call_sync { status := "completed" }
        (Except.error ())) ∧
    ((Calls.get_call_sync { status := "queued", vapi_call_id := "v1" }
        (Except.error ())).status ∉ TERMINAL_STATUSES ∧
      (Calls.get_call_sync { status := "queued", vapi_call_id := "v1" }
        (Except.error ())).vapi_call_id ≠ "" ∧ true = true ∧
      ({ status := "cancelled", vapi_call_id := "v1" } : Call) =
        { Calls.get_call_sync { status := "queued", vapi_call_id := "v1" }
            (Except.error ()) with status := "cancelled" }) :=
  ⟨C10_cancel_call_behavior.1 _ _ (by decide),
   C10_cancel_call_behavior.2.1 _ _ _ (Or.inl (by decide)),
   C10_cancel_call_behavior.2.2 _ _ true _ (by decide)⟩


end BoostedCalls
